import Mathlib

/-!
Shallow embedding of the authentication / encrypted-configuration core of
the vocabulary-review application (src/config/api_config.py and
src/config/auth.py), together with theorems checking the specification's
claims about it.

Conventions of the embedding:
* Python `datetime` values are modelled as integer timestamps in seconds;
  `timedelta(minutes=30)` is 1800 seconds, `timedelta(hours=h)` is `3600*h`.
* A timestamp stored in the session as a string is modelled by `TStr`:
  either a parseable ISO string carrying its instant, the empty string, or
  an unparseable non-empty string (on which `datetime.fromisoformat`
  raises, i.e. the `except (ValueError, TypeError)` branch fires).
* The Fernet/base64 cipher of `api_config.py` is an external library; it is
  modelled by a `Cipher` bundle: an encryption function, a fallible
  decryption function, and the library's contract (decryption inverts
  encryption under the same key; ciphertext of a non-empty plaintext is
  non-empty).
* The Flask `session` dict is modelled by `Session`, one `Option` field per
  session key (`none` = key absent, as after `session.pop`).
* Disk persistence (`_save_config`) has no observable effect on any claim
  and is not modelled; configuration mutators are `Config → Config`.
-/

namespace VocabReview

/-- Characters removed by Python's `str.strip()` with no argument. -/
def isPySpace (c : Char) : Bool :=
  c = ' ' || c = '\t' || c = '\n' || c = '\r' || c = '\x0b' || c = '\x0c'

/-- Python `s.strip()`: drop whitespace from both ends. -/
def pyStrip (s : String) : String :=
  String.mk (((s.toList.dropWhile isPySpace).reverse.dropWhile isPySpace).reverse)

/-- The symmetric cipher used by `APIConfigManager` (`Fernet` composed with
base64, under the key stored in `.encryption_key`).  `enc` models
`base64.b64encode(fernet.encrypt(v.encode())).decode()`; `dec` models the
decryption pipeline, `none` standing for the `except Exception` branch of
`_decrypt_value`.  The two contract fields are the library's guarantees used
by the code: same-key decryption inverts encryption exactly (Unicode-safe),
and encrypting a non-empty string yields a non-empty ciphertext. -/
structure Cipher where
  enc : String → String
  dec : String → Option String
  dec_enc : ∀ s : String, dec (enc s) = some s
  enc_nonempty : ∀ s : String, s ≠ "" → enc s ≠ ""

/-- A concrete cipher instance used to evaluate the model on closed inputs:
prepend a marker character; decryption strips it. -/
def demoEnc (s : String) : String := String.mk ('K' :: s.toList)

/-- Inverse of `demoEnc`; fails on strings not produced by it. -/
def demoDec (t : String) : Option String :=
  match t.toList with
  | c :: rest => if c = 'K' then some (String.mk rest) else none
  | [] => none

/-- The concrete cipher bundle for closed evaluations. -/
def demoCipher : Cipher where
  enc := demoEnc
  dec := demoDec
  dec_enc := fun _ => rfl
  enc_nonempty := fun s _ h => List.cons_ne_nil 'K' s.toList (congrArg String.data h)

/-- `_encrypt_value`: empty input is stored as the empty string, otherwise
the ciphertext of the input. -/
def encryptValue (c : Cipher) (value : String) : String :=
  if value = "" then "" else c.enc value

/-- `_decrypt_value`: empty field decrypts to the empty string; a decryption
failure is swallowed and also yields the empty string. -/
def decryptValue (c : Cipher) (encrypted_value : String) : String :=
  if encrypted_value = "" then ""
  else match c.dec encrypted_value with
       | some s => s
       | none => ""

/-- One provider block of the persisted configuration
(`"openai"` / `"gemini"`). -/
structure ProviderCfg where
  api_key : String
  model : String
  enabled : Bool
  deriving DecidableEq

/-- The `"settings"` block. -/
structure SettingsCfg where
  default_provider : String
  timeout : Int
  max_retries : Int
  deriving DecidableEq

/-- The `"auth"` block. -/
structure AuthCfg where
  passcode : String
  enabled : Bool
  auto_logout_enabled : Bool
  auto_logout_hours : Int
  max_failed_attempts : Int
  deriving DecidableEq

/-- The `"server"` block. -/
structure ServerCfg where
  https_enabled : Bool
  host : String
  port : Int
  cert_file : String
  key_file : String
  force_https : Bool
  deriving DecidableEq

/-- The full persisted configuration document. -/
structure Config where
  openai : ProviderCfg
  gemini : ProviderCfg
  settings : SettingsCfg
  auth : AuthCfg
  server : ServerCfg
  deriving DecidableEq

/-- The `"server"` defaults written by `_load_config` (both in the
first-run structure and in the backwards-compatibility branch). -/
def defaultServer : ServerCfg :=
  { https_enabled := true, host := "0.0.0.0", port := 8080,
    cert_file := "certs/cert.pem", key_file := "certs/key.pem",
    force_https := false }

/-- The default structure returned by `_load_config` when no configuration
file exists. -/
def defaultConfig : Config :=
  { openai := { api_key := "", model := "gpt-5-nano", enabled := false },
    gemini := { api_key := "", model := "gemini-2.5-flash-pro", enabled := false },
    settings := { default_provider := "openai", timeout := 30, max_retries := 3 },
    auth := { passcode := "", enabled := false, auto_logout_enabled := true,
              auto_logout_hours := 24, max_failed_attempts := 5 },
    server := defaultServer }

/-- A successfully parsed configuration file, in which the `"server"` key
may be absent (`json.load` result before the backwards-compatibility fix-up). -/
structure RawConfig where
  openai : ProviderCfg
  gemini : ProviderCfg
  settings : SettingsCfg
  auth : AuthCfg
  server : Option ServerCfg
  deriving DecidableEq

/-- State of the persisted configuration file as seen by `_load_config`:
absent, present but not valid JSON, or present and parseable. -/
inductive FileState where
  | absent
  | malformed
  | parsed (raw : RawConfig)
  deriving DecidableEq

/-- `_load_config`, with explicit fuel for the recursive call in its
`except (json.JSONDecodeError, FileNotFoundError)` handler
(`return self._load_config()`).  The file state is unchanged by the
recursive call — the handler does not delete or rewrite the file — so the
recursion receives the same `FileState`.  `none` models non-termination of
the Python recursion (which in CPython ends in a `RecursionError`). -/
def loadConfigFuel : Nat → FileState → Option Config
  | _, FileState.absent => some defaultConfig
  | _, FileState.parsed raw =>
      some { openai := raw.openai, gemini := raw.gemini,
             settings := raw.settings, auth := raw.auth,
             server := raw.server.getD defaultServer }
  | 0, FileState.malformed => none
  | Nat.succ n, FileState.malformed => loadConfigFuel n FileState.malformed

/-- `set_passcode`: store the ciphertext and mirror
`bool(passcode.strip())` into the enabled flag. -/
def setPasscode (c : Cipher) (cfg : Config) (passcode : String) : Config :=
  { cfg with auth := { cfg.auth with
      passcode := encryptValue c passcode,
      enabled := pyStrip passcode != "" } }

/-- `get_passcode`: decrypt the stored field. -/
def getPasscode (c : Cipher) (cfg : Config) : String :=
  decryptValue c cfg.auth.passcode

/-- `is_passcode_configured`: `bool(self.get_passcode())`. -/
def isPasscodeConfigured (c : Cipher) (cfg : Config) : Bool :=
  getPasscode c cfg != ""

/-- `is_auth_enabled`: the stored `enabled` flag of the `"auth"` block. -/
def isAuthEnabled (cfg : Config) : Bool :=
  cfg.auth.enabled

/-- `verify_passcode`: with no passcode configured every input is accepted,
otherwise exact string comparison with the decrypted passcode. -/
def verifyPasscode (c : Cipher) (cfg : Config) (input_passcode : String) : Bool :=
  if !(isPasscodeConfigured c cfg) then true
  else getPasscode c cfg == input_passcode

/-- `clear_passcode` delegates to `set_passcode("")`. -/
def clearPasscode (c : Cipher) (cfg : Config) : Config :=
  setPasscode c cfg ""

/-- `set_openai_api_key`. -/
def setOpenaiApiKey (c : Cipher) (cfg : Config) (api_key : String) : Config :=
  { cfg with openai := { cfg.openai with
      api_key := encryptValue c api_key,
      enabled := pyStrip api_key != "" } }

/-- `get_openai_api_key`. -/
def getOpenaiApiKey (c : Cipher) (cfg : Config) : String :=
  decryptValue c cfg.openai.api_key

/-- `set_gemini_api_key`. -/
def setGeminiApiKey (c : Cipher) (cfg : Config) (api_key : String) : Config :=
  { cfg with gemini := { cfg.gemini with
      api_key := encryptValue c api_key,
      enabled := pyStrip api_key != "" } }

/-- `get_gemini_api_key`. -/
def getGeminiApiKey (c : Cipher) (cfg : Config) : String :=
  decryptValue c cfg.gemini.api_key

/-- `set_timeout`: clamp to `[5, 120]` via `max(5, min(120, timeout))`. -/
def setTimeout (cfg : Config) (timeout : Int) : Config :=
  { cfg with settings := { cfg.settings with timeout := max 5 (min 120 timeout) } }

/-- `get_timeout`. -/
def getTimeout (cfg : Config) : Int :=
  cfg.settings.timeout

/-- `set_max_retries`: clamp to `[0, 10]`. -/
def setMaxRetries (cfg : Config) (retries : Int) : Config :=
  { cfg with settings := { cfg.settings with max_retries := max 0 (min 10 retries) } }

/-- `get_max_retries`. -/
def getMaxRetries (cfg : Config) : Int :=
  cfg.settings.max_retries

/-- `set_auto_logout_hours`: clamp to `[1, 168]`. -/
def setAutoLogoutHours (cfg : Config) (hours : Int) : Config :=
  { cfg with auth := { cfg.auth with auto_logout_hours := max 1 (min 168 hours) } }

/-- `get_auto_logout_hours`. -/
def getAutoLogoutHours (cfg : Config) : Int :=
  cfg.auth.auto_logout_hours

/-- `set_max_failed_attempts`: clamp to `[3, 20]`. -/
def setMaxFailedAttempts (cfg : Config) (attempts : Int) : Config :=
  { cfg with auth := { cfg.auth with max_failed_attempts := max 3 (min 20 attempts) } }

/-- `get_max_failed_attempts`. -/
def getMaxFailedAttempts (cfg : Config) : Int :=
  cfg.auth.max_failed_attempts

/-- `is_auto_logout_enabled`. -/
def isAutoLogoutEnabled (cfg : Config) : Bool :=
  cfg.auth.auto_logout_enabled

/-- `export_config`: deep copy; with `include_keys` the secret fields are
replaced by their decryptions, without it by `"***"` when the decrypted
secret is truthy and `""` otherwise. -/
def exportConfig (c : Cipher) (cfg : Config) (include_keys : Bool) : Config :=
  if include_keys then
    { cfg with
      openai := { cfg.openai with api_key := getOpenaiApiKey c cfg },
      gemini := { cfg.gemini with api_key := getGeminiApiKey c cfg },
      auth := { cfg.auth with passcode := getPasscode c cfg } }
  else
    { cfg with
      openai := { cfg.openai with
        api_key := if getOpenaiApiKey c cfg ≠ "" then "***" else "" },
      gemini := { cfg.gemini with
        api_key := if getGeminiApiKey c cfg ≠ "" then "***" else "" },
      auth := { cfg.auth with
        passcode := if getPasscode c cfg ≠ "" then "***" else "" } }

/-- The three secret fields of the configuration. -/
inductive SecretField where
  | openaiKey
  | geminiKey
  | authPasscode
  deriving DecidableEq

/-- The persisted (ciphertext) value of a secret field. -/
def secretCiphertext (cfg : Config) : SecretField → String
  | SecretField.openaiKey => cfg.openai.api_key
  | SecretField.geminiKey => cfg.gemini.api_key
  | SecretField.authPasscode => cfg.auth.passcode

/-- All string-valued leaves of a configuration document. -/
def configStrings (cfg : Config) : List String :=
  [cfg.openai.api_key, cfg.openai.model,
   cfg.gemini.api_key, cfg.gemini.model,
   cfg.settings.default_provider,
   cfg.auth.passcode,
   cfg.server.host, cfg.server.cert_file, cfg.server.key_file]

/-- The string-valued leaves that are not secret fields. -/
def nonSecretStrings (cfg : Config) : List String :=
  [cfg.openai.model, cfg.gemini.model,
   cfg.settings.default_provider,
   cfg.server.host, cfg.server.cert_file, cfg.server.key_file]

/-- A timestamp string stored in the session: `iso t` is a string
`datetime.fromisoformat` parses to the instant `t`; `emptyStr` is `""`
(falsy, so code guarded by `if not s:` never reaches parsing); `junk` is a
non-empty string on which parsing raises `ValueError`/`TypeError`. -/
inductive TStr where
  | iso (t : Int)
  | emptyStr
  | junk
  deriving DecidableEq

/-- Python truthiness of `session.get(key)` for a timestamp key:
`None` and `""` are falsy. -/
def tstrFalsy : Option TStr → Bool
  | none => true
  | some TStr.emptyStr => true
  | some TStr.junk => false
  | some (TStr.iso _) => false

/-- `datetime.fromisoformat` on a stored string: `none` models the raised
exception. -/
def tstrParse : TStr → Option Int
  | TStr.iso t => some t
  | TStr.emptyStr => none
  | TStr.junk => none

/-- The Flask session dict, one `Option` field per session key used by
`AuthManager` (`none` = key absent).  `permanent` models
`session.permanent`. -/
structure Session where
  authenticated : Option Bool
  login_time : Option TStr
  last_activity : Option TStr
  failed_attempts : Option Int
  blocked_until : Option TStr
  next_url : Option String
  permanent : Bool
  deriving DecidableEq

/-- The messages returned by `AuthManager.authenticate`, one constructor
per format string, carrying the interpolated numbers. -/
inductive AuthMsg where
  /-- The still-blocked rejection, stating the minutes left to wait. -/
  | blockedWait (minutes : Int)
  /-- The success message. -/
  | loginSuccess
  /-- The lockout message announcing the 30-minute block. -/
  | lockedOut
  /-- The wrong-passcode message, stating the attempts remaining. -/
  | wrongPasscode (remaining : Int)
  deriving DecidableEq

/-- `AuthManager.logout`: pop the five auth-related session keys. -/
def logout (s : Session) : Session :=
  { s with authenticated := none, login_time := none, last_activity := none,
           failed_attempts := none, blocked_until := none }

/-- `AuthManager._is_session_expired` at instant `now`. -/
def isSessionExpired (cfg : Config) (now : Int) (s : Session) : Bool :=
  if !(isAutoLogoutEnabled cfg) then false
  else if tstrFalsy s.login_time then true
  else match s.login_time.bind tstrParse with
       | some login_time => now > login_time + 3600 * getAutoLogoutHours cfg
       | none => true

/-- `AuthManager.is_blocked` at instant `now`: returns the
`(is_blocked, seconds_until_unblock)` pair together with the session after
the call's side effects (block and counter cleared once the window has
passed; nothing touched on a parse failure). -/
def isBlocked (now : Int) (s : Session) : (Bool × Option Int) × Session :=
  if tstrFalsy s.blocked_until then ((false, none), s)
  else match s.blocked_until.bind tstrParse with
       | some blocked_until =>
           if now < blocked_until then ((true, some (blocked_until - now)), s)
           else ((false, none), { s with blocked_until := none, failed_attempts := none })
       | none => ((false, none), s)

/-- `AuthManager._set_authenticated` at instant `now`. -/
def setAuthenticated (now : Int) (s : Session) : Session :=
  { s with authenticated := some true,
           login_time := some (TStr.iso now),
           last_activity := some (TStr.iso now),
           permanent := true,
           failed_attempts := none,
           blocked_until := none }

/-- `AuthManager._record_failed_attempt`. -/
def recordFailedAttempt (s : Session) : Session :=
  { s with failed_attempts := some (s.failed_attempts.getD 0 + 1) }

/-- `AuthManager._block_user` at instant `now`: 30 minutes = 1800 seconds. -/
def blockUser (now : Int) (s : Session) : Session :=
  { s with blocked_until := some (TStr.iso (now + 1800)) }

/-- `AuthManager.is_authenticated` at instant `now`: returns the verdict
and the session after the call's side effects (implicit logout on expiry,
activity refresh on success). -/
def isAuthenticated (c : Cipher) (cfg : Config) (now : Int) (s : Session) :
    Bool × Session :=
  if !(isPasscodeConfigured c cfg) then (true, s)
  else if !(s.authenticated.getD false) then (false, s)
  else if isSessionExpired cfg now s then (false, logout s)
  else (true, { s with last_activity := some (TStr.iso now) })

/-- `AuthManager.authenticate` at instant `now`: returns the
`(success, message)` pair and the updated session.  `Int.fdiv` is Python's
floor division `//`. -/
def authenticate (c : Cipher) (cfg : Config) (now : Int) (passcode : String)
    (s : Session) : (Bool × AuthMsg) × Session :=
  match isBlocked now s with
  | ((is_blocked, seconds_left), s1) =>
    if is_blocked then
      ((false, AuthMsg.blockedWait (max 1 (Int.fdiv (seconds_left.getD 0) 60))), s1)
    else if verifyPasscode c cfg passcode then
      ((true, AuthMsg.loginSuccess), setAuthenticated now s1)
    else
      let s2 := recordFailedAttempt s1
      let failed_attempts := s2.failed_attempts.getD 0
      let max_attempts := getMaxFailedAttempts cfg
      if failed_attempts ≥ max_attempts then
        ((false, AuthMsg.lockedOut), blockUser now s2)
      else
        ((false, AuthMsg.wrongPasscode (max_attempts - failed_attempts)), s2)

/-- Result of a guarded route call: the wrapped handler's value, a JSON
error payload with an HTTP status (the fields of the dict built by
`jsonify` in `require_auth_api`), or a redirect (produced only by the
browser-flow guard `require_auth`, never by the API guard). -/
inductive GuardResult (α : Type) where
  | ok (a : α)
  | jsonError (success : Bool) (message : String) (error_code : String) (status : Int)
  | redirect (url : String)
  deriving DecidableEq

/-- `require_auth_api` applied to a handler: check `is_authenticated`
(with its side effects on the session), then either short-circuit with the
JSON error and status 401 or run the handler. -/
def requireAuthApi {α : Type} (c : Cipher) (cfg : Config) (now : Int)
    (handler : Session → α × Session) (s : Session) : GuardResult α × Session :=
  match isAuthenticated c cfg now s with
  | (auth, s1) =>
    if auth then
      match handler s1 with
      | (r, s2) => (GuardResult.ok r, s2)
    else
      (GuardResult.jsonError false "需要身份驗證" "AUTH_REQUIRED" 401, s1)

/-! ## Shared helper lemmas -/

/-- What `get_passcode` reads back right after `set_passcode(p)`: the empty
string when `p` was empty, otherwise `p` itself (cipher round-trip). -/
theorem getPasscode_setPasscode (c : Cipher) (cfg : Config) (p : String) :
    getPasscode c (setPasscode c cfg p) = if p = "" then "" else p := by
  by_cases hp : p = ""
  · subst hp
    simp [getPasscode, setPasscode, encryptValue, decryptValue]
  · have henc := c.enc_nonempty p hp
    simp [getPasscode, setPasscode, encryptValue, decryptValue, hp, henc, c.dec_enc]

/-- `export_config` with `include_keys=False`, written out. -/
theorem exportConfig_false (c : Cipher) (cfg : Config) :
    exportConfig c cfg false =
      { cfg with
        openai := { cfg.openai with
          api_key := if getOpenaiApiKey c cfg ≠ "" then "***" else "" },
        gemini := { cfg.gemini with
          api_key := if getGeminiApiKey c cfg ≠ "" then "***" else "" },
        auth := { cfg.auth with
          passcode := if getPasscode c cfg ≠ "" then "***" else "" } } := rfl

/-- A string that is neither the placeholder nor empty differs from every
exported secret-field value. -/
theorem ne_ite_placeholder (ct : String) (hph : ct ≠ "***") (hct : ct ≠ "")
    (b : Prop) [Decidable b] : ct ≠ if b then "***" else "" := by
  split <;> assumption

/-- The four possible results of `is_authenticated`, by the branch taken:
no passcode configured, flag unset, expired (implicit logout), or success
(activity refresh). -/
theorem isAuthenticated_cases (c : Cipher) (cfg : Config) (now : Int) (s : Session) :
    isAuthenticated c cfg now s = (true, s) ∨
    isAuthenticated c cfg now s = (false, s) ∨
    isAuthenticated c cfg now s = (false, logout s) ∨
    isAuthenticated c cfg now s =
      (true, { s with last_activity := some (TStr.iso now) }) := by
  unfold isAuthenticated
  split_ifs <;> simp

/-- `is_authenticated` never writes `next_url`. -/
theorem isAuthenticated_next_url (c : Cipher) (cfg : Config) (now : Int) (s : Session) :
    (isAuthenticated c cfg now s).2.next_url = s.next_url := by
  rcases isAuthenticated_cases c cfg now s with h | h | h | h <;> simp [h, logout]

/-- When `is_authenticated` is false, the session is either untouched or
has been reset by the implicit logout. -/
theorem isAuthenticated_false_session (c : Cipher) (cfg : Config) (now : Int)
    (s : Session) (h : (isAuthenticated c cfg now s).1 = false) :
    (isAuthenticated c cfg now s).2 = s ∨
    (isAuthenticated c cfg now s).2 = logout s := by
  rcases isAuthenticated_cases c cfg now s with h4 | h4 | h4 | h4 <;>
    rw [h4] at h ⊢ <;> simp_all

/-- `require_auth_api` as a plain conditional on the `is_authenticated`
verdict. -/
theorem requireAuthApi_eq {α : Type} (c : Cipher) (cfg : Config) (now : Int)
    (handler : Session → α × Session) (s : Session) :
    requireAuthApi c cfg now handler s =
      if (isAuthenticated c cfg now s).1 then
        (GuardResult.ok (handler (isAuthenticated c cfg now s).2).1,
         (handler (isAuthenticated c cfg now s).2).2)
      else
        (GuardResult.jsonError false "需要身份驗證" "AUTH_REQUIRED" 401,
         (isAuthenticated c cfg now s).2) := by
  unfold requireAuthApi
  rcases h : isAuthenticated c cfg now s with ⟨auth, s1⟩
  rcases h2 : handler s1 with ⟨r, s2⟩
  cases auth <;> simp [h2]

/-- An `authenticate` call on a currently blocked session: immediate
rejection stating `max(1, seconds_left // 60)` minutes, session unchanged. -/
theorem authenticate_blocked (c : Cipher) (cfg : Config) (now bu : Int)
    (input : String) (s : Session)
    (hb : s.blocked_until = some (TStr.iso bu)) (hlt : now < bu) :
    authenticate c cfg now input s =
      ((false, AuthMsg.blockedWait (max 1 (Int.fdiv (bu - now) 60))), s) := by
  simp [authenticate, isBlocked, hb, tstrFalsy, tstrParse, hlt]

/-- An `authenticate` call with a wrong passcode on an unblocked session:
the counter is incremented and either the lockout fires (at the configured
threshold) or the remaining attempts are reported. -/
theorem authenticate_wrong (c : Cipher) (cfg : Config) (now : Int) (w : String)
    (s : Session) (hb : s.blocked_until = none)
    (hconf : getPasscode c cfg ≠ "") (hw : getPasscode c cfg ≠ w) :
    authenticate c cfg now w s =
      if s.failed_attempts.getD 0 + 1 ≥ cfg.auth.max_failed_attempts then
        ((false, AuthMsg.lockedOut),
         { s with failed_attempts := some (s.failed_attempts.getD 0 + 1),
                  blocked_until := some (TStr.iso (now + 1800)) })
      else
        ((false, AuthMsg.wrongPasscode
            (cfg.auth.max_failed_attempts - (s.failed_attempts.getD 0 + 1))),
         { s with failed_attempts := some (s.failed_attempts.getD 0 + 1) }) := by
  have hv : verifyPasscode c cfg w = false := by
    simp [verifyPasscode, isPasscodeConfigured, bne_iff_ne, hconf, hw]
  by_cases hth : s.failed_attempts.getD 0 + 1 ≥ cfg.auth.max_failed_attempts <;>
    simp [authenticate, isBlocked, hb, tstrFalsy, hv, recordFailedAttempt,
          blockUser, getMaxFailedAttempts, hth]

/-! ## Claim theorems -/

/-- C2: the spec claims that loading a persisted configuration file whose
contents are not valid JSON terminates normally and returns the default
structure.  On the code this fails: the `except` handler of `_load_config`
calls `_load_config` again with the same still-malformed file, so the load
never returns a value at all (for any recursion budget), while a load with
the file absent does return the default structure. -/
theorem loadConfig_malformed_never_returns (fuel : Nat) :
    loadConfigFuel fuel FileState.malformed = none ∧
    loadConfigFuel fuel FileState.absent = some defaultConfig := by
  constructor
  · induction fuel with
    | zero => rfl
    | succ n ih => simpa [loadConfigFuel] using ih
  · cases fuel <;> rfl

/-- C8: setting timeout stores `min(max(v,5),120)`, max_retries the clamp
of `v` into `[0,10]`, auto_logout_hours the clamp into `[1,168]`, and
max_failed_attempts the clamp into `[3,20]`; each getter returns the
clamped value. -/
theorem policy_value_clamping (cfg : Config) (v : Int) :
    getTimeout (setTimeout cfg v) = min (max v 5) 120 ∧
    getMaxRetries (setMaxRetries cfg v) = min (max v 0) 10 ∧
    getAutoLogoutHours (setAutoLogoutHours cfg v) = min (max v 1) 168 ∧
    getMaxFailedAttempts (setMaxFailedAttempts cfg v) = min (max v 3) 20 := by
  refine ⟨?_, ?_, ?_, ?_⟩ <;>
    simp [getTimeout, setTimeout, getMaxRetries, setMaxRetries,
          getAutoLogoutHours, setAutoLogoutHours,
          getMaxFailedAttempts, setMaxFailedAttempts] <;>
    omega

/-- C6: storing a non-empty secret and reading it back under the same key
returns it exactly: `get_passcode` after `set_passcode(S)` is `S`. -/
theorem passcode_roundtrip (c : Cipher) (cfg : Config) (S : String)
    (hS : S ≠ "") :
    getPasscode c (setPasscode c cfg S) = S := by
  rw [getPasscode_setPasscode]
  simp [hS]

/-- Witness for C6 at a concrete Unicode secret. -/
theorem passcode_roundtrip_witness :
    ("秘密" : String) ≠ "" ∧
    getPasscode demoCipher (setPasscode demoCipher defaultConfig "秘密") = "秘密" :=
  ⟨by decide, passcode_roundtrip demoCipher defaultConfig "秘密" (by decide)⟩

/-- C3 counterexample: after `set_passcode(" ")` the stored enabled flag is
`false` although the decrypted stored passcode `" "` is non-empty, so
`is_auth_enabled()` and `is_passcode_configured()` disagree. -/
theorem passcode_enabled_invariant_counterexample :
    isAuthEnabled (setPasscode demoCipher defaultConfig " ") = false ∧
    decryptValue demoCipher (setPasscode demoCipher defaultConfig " ").auth.passcode ≠ "" ∧
    isPasscodeConfigured demoCipher (setPasscode demoCipher defaultConfig " ") = true := by
  decide

/-- C3 amended: after `set_passcode(p)` the stored enabled flag equals
`bool(p.strip())`, while `is_passcode_configured()` equals `p != ""`; the
two coincide exactly when `p` is empty or contains a non-whitespace
character, and diverge on whitespace-only `p`. -/
theorem passcode_enabled_vs_configured (c : Cipher) (cfg : Config) (p : String) :
    (isAuthEnabled (setPasscode c cfg p) = true ↔ pyStrip p ≠ "") ∧
    (isPasscodeConfigured c (setPasscode c cfg p) = true ↔ p ≠ "") := by
  constructor
  · simp [isAuthEnabled, setPasscode]
  · by_cases hp : p = "" <;>
      simp [isPasscodeConfigured, getPasscode_setPasscode, hp]

/-- C7: exporting without secrets replaces every configured secret field by
the placeholder `"***"` — never its ciphertext, never its plaintext — and
the ciphertext string persisted for that secret appears nowhere in the
exported structure (given that it does not already coincide with one of the
non-secret string fields or with the placeholder, which Fernet/base64
ciphertexts cannot). -/
theorem export_never_leaks_ciphertext (c : Cipher) (cfg : Config) (f : SecretField)
    (hconf : decryptValue c (secretCiphertext cfg f) ≠ "")
    (hnc : secretCiphertext cfg f ∉ nonSecretStrings cfg)
    (hph : secretCiphertext cfg f ≠ "***")
    (hpt : decryptValue c (secretCiphertext cfg f) ≠ "***") :
    secretCiphertext (exportConfig c cfg false) f = "***" ∧
    secretCiphertext cfg f ∉ configStrings (exportConfig c cfg false) ∧
    secretCiphertext (exportConfig c cfg false) f ≠ secretCiphertext cfg f ∧
    secretCiphertext (exportConfig c cfg false) f ≠
      decryptValue c (secretCiphertext cfg f) := by
  have hct : secretCiphertext cfg f ≠ "" := by
    intro h
    exact hconf (by rw [h]; simp [decryptValue])
  have hfield : secretCiphertext (exportConfig c cfg false) f = "***" := by
    cases f <;>
      simp_all [exportConfig_false, secretCiphertext, getOpenaiApiKey,
                getGeminiApiKey, getPasscode]
  refine ⟨hfield, ?_, ?_, ?_⟩
  · simp only [nonSecretStrings, List.mem_cons, List.not_mem_nil, or_false,
               not_or] at hnc
    obtain ⟨hm1, hm2, hdp, hhost, hcert, hkey⟩ := hnc
    rw [exportConfig_false]
    simp only [configStrings, List.mem_cons, List.not_mem_nil, or_false, not_or]
    exact ⟨ne_ite_placeholder _ hph hct _, hm1, ne_ite_placeholder _ hph hct _,
           hm2, hdp, ne_ite_placeholder _ hph hct _, hhost, hcert, hkey⟩
  · rw [hfield]; exact fun h => hph h.symm
  · rw [hfield]; exact fun h => hpt h.symm

/-- A configuration with all three secrets set, for closed evaluation. -/
def demoCfgSecrets : Config :=
  setPasscode demoCipher
    (setGeminiApiKey demoCipher
      (setOpenaiApiKey demoCipher defaultConfig "okey") "gkey") "pw"

/-- Witness for C7 at a concrete configured secret. -/
theorem export_never_leaks_ciphertext_witness :
    decryptValue demoCipher (secretCiphertext demoCfgSecrets SecretField.openaiKey) ≠ "" ∧
    secretCiphertext demoCfgSecrets SecretField.openaiKey ∉ nonSecretStrings demoCfgSecrets ∧
    secretCiphertext demoCfgSecrets SecretField.openaiKey ≠ "***" ∧
    decryptValue demoCipher (secretCiphertext demoCfgSecrets SecretField.openaiKey) ≠ "***" ∧
    (secretCiphertext (exportConfig demoCipher demoCfgSecrets false) SecretField.openaiKey = "***" ∧
     secretCiphertext demoCfgSecrets SecretField.openaiKey ∉
       configStrings (exportConfig demoCipher demoCfgSecrets false) ∧
     secretCiphertext (exportConfig demoCipher demoCfgSecrets false) SecretField.openaiKey ≠
       secretCiphertext demoCfgSecrets SecretField.openaiKey ∧
     secretCiphertext (exportConfig demoCipher demoCfgSecrets false) SecretField.openaiKey ≠
       decryptValue demoCipher (secretCiphertext demoCfgSecrets SecretField.openaiKey)) :=
  ⟨by decide, by decide, by decide, by decide,
   export_never_leaks_ciphertext demoCipher demoCfgSecrets SecretField.openaiKey
     (by decide) (by decide) (by decide) (by decide)⟩

/-- C10: a session whose `blocked_until` value cannot be parsed as a
timestamp is treated as not blocked — `is_blocked` returns `(False, None)`
and leaves the session untouched (fail open) — while an unparseable
`login_time` makes `_is_session_expired` report the session expired
(fail closed), when auto-logout is enabled. -/
theorem unparseable_block_fail_open (cfg : Config) (now : Int) (s t : Session)
    (hb : s.blocked_until = some TStr.junk)
    (hlt : t.login_time = some TStr.junk)
    (hen : cfg.auth.auto_logout_enabled = true) :
    isBlocked now s = ((false, none), s) ∧
    isSessionExpired cfg now t = true := by
  constructor
  · simp [isBlocked, hb, tstrFalsy, tstrParse]
  · simp [isSessionExpired, isAutoLogoutEnabled, hen, hlt, tstrFalsy, tstrParse]

/-- A session holding unparseable timestamp strings, for closed evaluation. -/
def junkSession : Session :=
  { authenticated := none, login_time := some TStr.junk, last_activity := none,
    failed_attempts := some 2, blocked_until := some TStr.junk,
    next_url := none, permanent := false }

/-- Witness for C10 at a concrete session. -/
theorem unparseable_block_fail_open_witness :
    junkSession.blocked_until = some TStr.junk ∧
    junkSession.login_time = some TStr.junk ∧
    defaultConfig.auth.auto_logout_enabled = true ∧
    (isBlocked 0 junkSession = ((false, none), junkSession) ∧
     isSessionExpired defaultConfig 0 junkSession = true) :=
  ⟨rfl, rfl, rfl, unparseable_block_fail_open defaultConfig 0 junkSession junkSession rfl rfl rfl⟩

/-- C5: on a session whose authenticated flag is set — with auto-logout
disabled `is_authenticated` is true regardless of elapsed time; with it
enabled, a missing `login_time` means expired, a recorded one means expired
exactly when `now > login_time + auto_logout_hours`; and when a configured
passcode makes the expiry check reachable, detected expiry yields
`is_authenticated` false with the authenticated flag cleared by the
implicit logout. -/
theorem session_expiry_policy (c : Cipher) (cfg : Config) (now : Int) (s : Session)
    (hauth : s.authenticated = some true) :
    (cfg.auth.auto_logout_enabled = false → (isAuthenticated c cfg now s).1 = true) ∧
    (cfg.auth.auto_logout_enabled = true → s.login_time = none →
      isSessionExpired cfg now s = true) ∧
    (∀ lt : Int, cfg.auth.auto_logout_enabled = true →
      s.login_time = some (TStr.iso lt) →
      (isSessionExpired cfg now s = true ↔
        now > lt + 3600 * cfg.auth.auto_logout_hours)) ∧
    (isPasscodeConfigured c cfg = true → isSessionExpired cfg now s = true →
      (isAuthenticated c cfg now s).1 = false ∧
      (isAuthenticated c cfg now s).2.authenticated = none) := by
  refine ⟨?_, ?_, ?_, ?_⟩
  · intro hdis
    by_cases hc : isPasscodeConfigured c cfg <;>
      simp [isAuthenticated, hc, hauth, isSessionExpired, isAutoLogoutEnabled, hdis]
  · intro hen hlt
    simp [isSessionExpired, isAutoLogoutEnabled, hen, hlt, tstrFalsy]
  · intro lt hen hlt
    simp [isSessionExpired, isAutoLogoutEnabled, getAutoLogoutHours, hen, hlt,
          tstrFalsy, tstrParse]
  · intro hc hexp
    simp [isAuthenticated, hc, hauth, hexp, logout]

/-- A configuration with the passcode `"pw"` configured. -/
def demoCfgPw : Config :=
  setPasscode demoCipher defaultConfig "pw"

/-- A session authenticated at instant 0. -/
def expiredSession : Session :=
  { authenticated := some true, login_time := some (TStr.iso 0),
    last_activity := some (TStr.iso 0), failed_attempts := none,
    blocked_until := none, next_url := none, permanent := true }

/-- Witness for C5: with the default 24-hour auto-logout, a session
authenticated at instant 0 is expired at instant 90000 and the implicit
logout fires. -/
theorem session_expiry_policy_witness :
    expiredSession.authenticated = some true ∧
    isPasscodeConfigured demoCipher demoCfgPw = true ∧
    isSessionExpired demoCfgPw 90000 expiredSession = true ∧
    ((isAuthenticated demoCipher demoCfgPw 90000 expiredSession).1 = false ∧
     (isAuthenticated demoCipher demoCfgPw 90000 expiredSession).2.authenticated = none) :=
  ⟨rfl, by decide, by decide,
   (session_expiry_policy demoCipher demoCfgPw 90000 expiredSession rfl).2.2.2
     (by decide) (by decide)⟩

/-- C9: an unauthenticated request through `require_auth_api` yields the
JSON payload `success=False`, `error_code="AUTH_REQUIRED"` with status 401,
never invokes the handler, never redirects, writes no `next_url` (and no
other value — the session is at most reset by the implicit logout); an
authenticated request gets the handler's result passed through unmodified. -/
theorem api_guard_behavior {α : Type} (c : Cipher) (cfg : Config) (now : Int)
    (handler : Session → α × Session) (s : Session) :
    ((isAuthenticated c cfg now s).1 = false →
      (requireAuthApi c cfg now handler s).1 =
        GuardResult.jsonError false "需要身份驗證" "AUTH_REQUIRED" 401 ∧
      (∀ handler2 : Session → α × Session,
        requireAuthApi c cfg now handler2 s = requireAuthApi c cfg now handler s) ∧
      (∀ url : String,
        (requireAuthApi c cfg now handler s).1 ≠ GuardResult.redirect url) ∧
      (requireAuthApi c cfg now handler s).2.next_url = s.next_url ∧
      ((requireAuthApi c cfg now handler s).2 = s ∨
        (requireAuthApi c cfg now handler s).2 = logout s)) ∧
    ((isAuthenticated c cfg now s).1 = true →
      (requireAuthApi c cfg now handler s).1 =
        GuardResult.ok (handler (isAuthenticated c cfg now s).2).1 ∧
      (requireAuthApi c cfg now handler s).2 =
        (handler (isAuthenticated c cfg now s).2).2) := by
  constructor
  · intro hf
    refine ⟨?_, ?_, ?_, ?_, ?_⟩
    · simp [requireAuthApi_eq, hf]
    · intro handler2
      simp [requireAuthApi_eq, hf]
    · intro url
      simp [requireAuthApi_eq, hf]
    · simp [requireAuthApi_eq, hf, isAuthenticated_next_url]
    · simp only [requireAuthApi_eq, hf, Bool.false_eq_true, if_false]
      exact isAuthenticated_false_session c cfg now s hf
  · intro ht
    constructor <;> simp [requireAuthApi_eq, ht]

/-- A fresh session with no keys set. -/
def emptySession : Session :=
  { authenticated := none, login_time := none, last_activity := none,
    failed_attempts := none, blocked_until := none, next_url := none,
    permanent := false }

/-- A concrete handler for closed evaluation of the guard. -/
def demoHandler : Session → Nat × Session :=
  fun s => (1, s)

/-- Witness for C9: with a passcode configured and a fresh session, the API
guard returns the structured 401 error. -/
theorem api_guard_behavior_witness :
    (isAuthenticated demoCipher demoCfgPw 0 emptySession).1 = false ∧
    (requireAuthApi demoCipher demoCfgPw 0 demoHandler emptySession).1 =
      GuardResult.jsonError false "需要身份驗證" "AUTH_REQUIRED" 401 :=
  ⟨by decide,
   ((api_guard_behavior demoCipher demoCfgPw 0 demoHandler emptySession).1 (by decide)).1⟩

/-- A session blocked until instant 90 (90 seconds remaining at instant 0). -/
def blockedSession90 : Session :=
  { authenticated := none, login_time := none, last_activity := none,
    failed_attempts := some 3, blocked_until := some (TStr.iso 90),
    next_url := none, permanent := false }

/-- C4 counterexample: with 90 seconds of block remaining, the rejection
message states 1 minute (`max(1, 90 // 60)`), not the 2 minutes the
claim's rounding-up rule demands. -/
theorem blocked_message_ceiling_counterexample :
    (authenticate demoCipher defaultConfig 0 "x" blockedSession90).1.1 = false ∧
    (authenticate demoCipher defaultConfig 0 "x" blockedSession90).1.2 =
      AuthMsg.blockedWait 1 ∧
    (authenticate demoCipher defaultConfig 0 "x" blockedSession90).1.2 ≠
      AuthMsg.blockedWait 2 := by
  decide

/-- C4 amended: on a session blocked with `s = bu - now > 0` seconds
remaining, `authenticate` rejects with a message stating
`max(1, s // 60)` minutes — floor division with a minimum of 1, not
rounding up. -/
theorem blocked_message_floor_minutes (c : Cipher) (cfg : Config) (now bu : Int)
    (input : String) (s : Session)
    (hb : s.blocked_until = some (TStr.iso bu)) (hlt : now < bu) :
    (authenticate c cfg now input s).1 =
      (false, AuthMsg.blockedWait (max 1 (Int.fdiv (bu - now) 60))) ∧
    (authenticate c cfg now input s).2 = s := by
  rw [authenticate_blocked c cfg now bu input s hb hlt]
  exact ⟨rfl, rfl⟩

/-- Witness for the amended C4 at 90 seconds remaining. -/
theorem blocked_message_floor_minutes_witness :
    blockedSession90.blocked_until = some (TStr.iso 90) ∧
    (0 : Int) < 90 ∧
    (authenticate demoCipher defaultConfig 0 "x" blockedSession90).1 =
      (false, AuthMsg.blockedWait (max 1 (Int.fdiv (90 - 0) 60))) :=
  ⟨rfl, by decide,
   (blocked_message_floor_minutes demoCipher defaultConfig 0 90 "x" blockedSession90
     rfl (by decide)).1⟩

/-- C1: with `max_failed_attempts = 3` and a non-empty passcode configured,
starting from a session with no failed attempts and no block: three wrong
`authenticate` calls each fail, the third reports lockout and sets
`blocked_until` to its instant plus 30 minutes; a fourth call inside the
window — with any input, including the correct passcode — is rejected with
the still-blocked message and leaves the session unchanged; once the 30
minutes have elapsed, authenticating with the correct passcode succeeds and
leaves the failed-attempt counter cleared. -/
theorem lockout_scenario (c : Cipher) (cfg : Config) (P w1 w2 w3 x : String)
    (t1 t2 t3 t4 t5 : Int) (s0 : Session)
    (hmax : cfg.auth.max_failed_attempts = 3)
    (hP : getPasscode c cfg = P) (hPne : P ≠ "")
    (hw1 : w1 ≠ P) (hw2 : w2 ≠ P) (hw3 : w3 ≠ P)
    (hb0 : s0.blocked_until = none)
    (hf0 : s0.failed_attempts.getD 0 = 0)
    (ht4 : t4 < t3 + 1800) (ht5 : t3 + 1800 ≤ t5) :
    (let r1 := authenticate c cfg t1 w1 s0
     let r2 := authenticate c cfg t2 w2 r1.2
     let r3 := authenticate c cfg t3 w3 r2.2
     let r4 := authenticate c cfg t4 x r3.2
     let r5 := authenticate c cfg t5 P r4.2
     r1.1.1 = false ∧ r2.1.1 = false ∧ r3.1.1 = false ∧
     r3.1.2 = AuthMsg.lockedOut ∧
     r3.2.blocked_until = some (TStr.iso (t3 + 1800)) ∧
     r4.1.1 = false ∧ (∃ m : Int, r4.1.2 = AuthMsg.blockedWait m) ∧
     r4.2 = r3.2 ∧
     r5.1.1 = true ∧ r5.2.failed_attempts = none ∧
     r5.2.failed_attempts.getD 0 = 0) := by
  have hconf : getPasscode c cfg ≠ "" := hP ▸ hPne
  have hw1' : getPasscode c cfg ≠ w1 := by rw [hP]; exact Ne.symm hw1
  have hw2' : getPasscode c cfg ≠ w2 := by rw [hP]; exact Ne.symm hw2
  have hw3' : getPasscode c cfg ≠ w3 := by rw [hP]; exact Ne.symm hw3
  have hb1 : ({ s0 with failed_attempts := some 1 } : Session).blocked_until = none := hb0
  have hb2 : ({ s0 with failed_attempts := some 2 } : Session).blocked_until = none := hb0
  have e1 : authenticate c cfg t1 w1 s0 =
      ((false, AuthMsg.wrongPasscode 2), { s0 with failed_attempts := some 1 }) := by
    rw [authenticate_wrong c cfg t1 w1 s0 hb0 hconf hw1', hf0, hmax]
    norm_num
  have e2 : authenticate c cfg t2 w2 ({ s0 with failed_attempts := some 1 }) =
      ((false, AuthMsg.wrongPasscode 1), { s0 with failed_attempts := some 2 }) := by
    rw [authenticate_wrong c cfg t2 w2 _ hb1 hconf hw2', hmax]
    norm_num
  have e3 : authenticate c cfg t3 w3 ({ s0 with failed_attempts := some 2 }) =
      ((false, AuthMsg.lockedOut),
       { s0 with failed_attempts := some 3,
                 blocked_until := some (TStr.iso (t3 + 1800)) }) := by
    rw [authenticate_wrong c cfg t3 w3 _ hb2 hconf hw3', hmax]
    norm_num
  have e4 : authenticate c cfg t4 x
      ({ s0 with failed_attempts := some 3,
                 blocked_until := some (TStr.iso (t3 + 1800)) }) =
      ((false, AuthMsg.blockedWait (max 1 (Int.fdiv (t3 + 1800 - t4) 60))),
       { s0 with failed_attempts := some 3,
                 blocked_until := some (TStr.iso (t3 + 1800)) }) :=
    authenticate_blocked c cfg t4 (t3 + 1800) x _ rfl ht4
  have hnb : ¬ (t5 < t3 + 1800) := not_lt.mpr ht5
  have e5 : authenticate c cfg t5 P
      ({ s0 with failed_attempts := some 3,
                 blocked_until := some (TStr.iso (t3 + 1800)) }) =
      ((true, AuthMsg.loginSuccess),
       setAuthenticated t5
         ({ s0 with failed_attempts := none, blocked_until := none })) := by
    simp [authenticate, isBlocked, tstrFalsy, tstrParse, hnb, verifyPasscode,
          isPasscodeConfigured, bne_iff_ne, hconf, hP]
  dsimp only
  rw [e1]
  dsimp only
  rw [e2]
  dsimp only
  rw [e3]
  dsimp only
  rw [e4]
  dsimp only
  rw [e5]
  exact ⟨rfl, rfl, rfl, rfl, rfl, rfl, ⟨_, rfl⟩, rfl, rfl, rfl, rfl⟩

/-- A configuration with passcode `"pw"` and `max_failed_attempts = 3`. -/
def demoCfg3 : Config :=
  setMaxFailedAttempts (setPasscode demoCipher defaultConfig "pw") 3

/-- Witness for C1 on concrete inputs: three wrong attempts at instants 0,
a blocked retry at instant 10, and a correct login at instant 1800. -/
theorem lockout_scenario_witness :
    demoCfg3.auth.max_failed_attempts = 3 ∧
    getPasscode demoCipher demoCfg3 = "pw" ∧
    (let r1 := authenticate demoCipher demoCfg3 0 "bad" emptySession
     let r2 := authenticate demoCipher demoCfg3 0 "bad" r1.2
     let r3 := authenticate demoCipher demoCfg3 0 "bad" r2.2
     let r4 := authenticate demoCipher demoCfg3 10 "pw" r3.2
     let r5 := authenticate demoCipher demoCfg3 1800 "pw" r4.2
     r1.1.1 = false ∧ r2.1.1 = false ∧ r3.1.1 = false ∧
     r3.1.2 = AuthMsg.lockedOut ∧
     r3.2.blocked_until = some (TStr.iso (0 + 1800)) ∧
     r4.1.1 = false ∧ (∃ m : Int, r4.1.2 = AuthMsg.blockedWait m) ∧
     r4.2 = r3.2 ∧
     r5.1.1 = true ∧ r5.2.failed_attempts = none ∧
     r5.2.failed_attempts.getD 0 = 0) :=
  ⟨by decide, by decide,
   lockout_scenario demoCipher demoCfg3 "pw" "bad" "bad" "bad" "pw" 0 0 0 10 1800
     emptySession (by decide) (by decide) (by decide) (by decide) (by decide)
     (by decide) rfl rfl (by decide) (by decide)⟩

end VocabReview
